import Mathlib

/-!
Verification of the smile-scoring backend (`smile_cam/backend/app.py`).

The core is `calculate_smile_score`, a pure function from a face-landmarker
result (a list of landmark sets, each an indexed family of normalized 2D
points) to a score in [0, 1], plus the `/predict` Flask endpoint that wraps
it.  Python float arithmetic is embedded over `ℚ`; `round(x, 3)` is embedded
as round-half-to-even on multiples of 1/1000.  The HTTP endpoint is embedded
as a total function over an environment of external collaborators
(JSON body parsing, base64 decoding, image decoding, landmark detection),
each of which may fail the way the Python call can.
-/

/-- A normalized 2D facial landmark point (`landmark.x`, `landmark.y`). -/
structure Landmark where
  x : ℚ
  y : ℚ
deriving DecidableEq

/-- A landmark set: positional indexing into the 468-point face mesh.
The caller guarantees full topology, so it is total over indices. -/
def LandmarkSet : Type := ℕ → Landmark

/-- `FaceLandmarkerResult.face_landmarks` from the mediapipe API: a list of
landmark sets, empty when no face was detected. -/
structure FaceLandmarkerResult where
  face_landmarks : List LandmarkSet

/-- `MOUTH_CORNERS_LEFT = 61` from app.py. -/
def MOUTH_CORNERS_LEFT : ℕ := 61

/-- `MOUTH_CORNERS_RIGHT = 291` from app.py. -/
def MOUTH_CORNERS_RIGHT : ℕ := 291

/-- `MOUTH_UPPER_POINTS` from app.py. -/
def MOUTH_UPPER_POINTS : List ℕ := [61, 185, 40, 39, 37, 0, 267, 269, 270, 409, 291]

/-- `MOUTH_LOWER_POINTS` from app.py. -/
def MOUTH_LOWER_POINTS : List ℕ := [146, 91, 181, 84, 17, 314, 405, 321, 375]

/-- `upper_y = sum(landmarks[i].y for i in MOUTH_UPPER_POINTS[:5]) / 5`. -/
def upper_y (landmarks : LandmarkSet) : ℚ :=
  (((MOUTH_UPPER_POINTS.take 5).map (fun i => (landmarks i).y)).sum) / 5

/-- `lower_y = sum(landmarks[i].y for i in MOUTH_LOWER_POINTS[:5]) / 5`. -/
def lower_y (landmarks : LandmarkSet) : ℚ :=
  (((MOUTH_LOWER_POINTS.take 5).map (fun i => (landmarks i).y)).sum) / 5

/-- `center_y = (upper_y + lower_y) / 2`. -/
def center_y (landmarks : LandmarkSet) : ℚ :=
  (upper_y landmarks + lower_y landmarks) / 2

/-- `mouth_height = lower_y - upper_y`. -/
def mouth_height (landmarks : LandmarkSet) : ℚ :=
  lower_y landmarks - upper_y landmarks

/-- `left_elevation = max(0, center_y - left_corner.y)`. -/
def left_elevation (landmarks : LandmarkSet) : ℚ :=
  max 0 (center_y landmarks - (landmarks MOUTH_CORNERS_LEFT).y)

/-- `right_elevation = max(0, center_y - right_corner.y)`. -/
def right_elevation (landmarks : LandmarkSet) : ℚ :=
  max 0 (center_y landmarks - (landmarks MOUTH_CORNERS_RIGHT).y)

/-- `avg_elevation = (left_elevation + right_elevation) / 2`. -/
def avg_elevation (landmarks : LandmarkSet) : ℚ :=
  (left_elevation landmarks + right_elevation landmarks) / 2

/-- `min(1.0, max(0.0, (avg_elevation - 0.005) / 0.035))` — the clamped
linear rescale before rounding. -/
def clamped_score (landmarks : LandmarkSet) : ℚ :=
  min 1 (max 0 ((avg_elevation landmarks - 5/1000) / (35/1000)))

/-- Python `round` to the nearest integer: round half to even. -/
def roundHalfEven (q : ℚ) : ℤ :=
  if Int.fract q < 1/2 then ⌊q⌋
  else if 1/2 < Int.fract q then ⌊q⌋ + 1
  else if 2 ∣ ⌊q⌋ then ⌊q⌋ else ⌊q⌋ + 1

/-- Python `round(q, 3)`: round to the nearest multiple of 1/1000,
ties to even. -/
def round3 (q : ℚ) : ℚ :=
  (roundHalfEven (q * 1000) : ℚ) / 1000

/-- `calculate_smile_score` from app.py, over `ℚ`. -/
def calculate_smile_score (face_landmarker_result : FaceLandmarkerResult) : ℚ :=
  match face_landmarker_result.face_landmarks with
  | [] => 0
  | landmarks :: _ =>
    if mouth_height landmarks > 8/100 then 0
    else round3 (clamped_score landmarks)

/-- `smile_detected = score > 0.5` from `predict_smile` in app.py. -/
def smile_detected (score : ℚ) : Bool :=
  decide (score > 1/2)

/-- The result of a Python expression: a value, or a raised exception. -/
inductive PyResult (α : Type) where
  | ok (a : α)
  | exn (msg : String)
deriving DecidableEq

/-- A JSON value, as `request.get_json()` produces it in Python:
`None`, `bool`, a number, `str`, `list`, or `dict`. -/
inductive JsonValue where
  | null : JsonValue
  | jbool : Bool → JsonValue
  | jnum : ℚ → JsonValue
  | jstr : String → JsonValue
  | jarr : List JsonValue → JsonValue
  | jobj : List (String × JsonValue) → JsonValue

/-- `key.isPrefixOf s || (key occurs in the tail of s)`: Python substring
membership `key in s` on character lists. -/
def subOf (key : List Char) : List Char → Bool
  | [] => key.isEmpty
  | c :: t => key.isPrefixOf (c :: t) || subOf key t

/-- Python `key in data` on a JSON value: substring test on `str`, element
test on `list`, key test on `dict`, and a `TypeError` on `None`, `bool`
and numbers, which are not iterable. -/
def pyContains (key : String) : JsonValue → PyResult Bool
  | .null => .exn "argument of type NoneType is not iterable"
  | .jbool _ => .exn "argument of type bool is not iterable"
  | .jnum _ => .exn "argument of type int is not iterable"
  | .jstr s => .ok (subOf key.data s.data)
  | .jarr xs => .ok (xs.any (fun x => match x with | .jstr s => s == key | _ => false))
  | .jobj kvs => .ok (kvs.any (fun p => p.1 == key))

/-- Python `data[key]` on a JSON value: dict lookup (a `KeyError` when the
key is missing), a `TypeError` on every other shape. -/
def pySubscript (key : String) : JsonValue → PyResult JsonValue
  | .jobj kvs =>
    match kvs.find? (fun p => p.1 == key) with
    | some p => .ok p.2
    | none => .exn "KeyError"
  | .jstr _ => .exn "string indices must be integers"
  | .jarr _ => .exn "list indices must be integers"
  | _ => .exn "TypeError: object is not subscriptable"

/-- `_, encoded = data["image"].split(",", 1)`: needs a string holding a
comma; a non-string raises an `AttributeError` at `.split`, a string with
no comma raises a `ValueError` at unpacking.  Returns the part after the
first comma. -/
def pySplitComma : JsonValue → PyResult String
  | .jstr s =>
    if s.data.contains ',' then
      .ok ⟨(s.data.dropWhile (fun c => c ≠ ',')).drop 1⟩
    else .exn "not enough values to unpack"
  | _ => .exn "object has no attribute split"

/-- A raw byte string, as produced by `base64.b64decode`. -/
structure Bytes where
  data : List ℕ
deriving DecidableEq

/-- An opaque decoded image (`cv2.imdecode` output). -/
structure Image where
  id : ℕ
deriving DecidableEq

/-- The external collaborators of `predict_smile`, each embedded with the
failure modes of the Python call: the parsed request body (absent or
malformed bodies make `request.get_json()` raise), `base64.b64decode`
(which raises on bad input), `cv2.imdecode` (which returns `None` on
failure), the pure `cv2.flip`/`cv2.cvtColor`/`mp.Image` pipeline, and
`landmarker.detect`. -/
structure PredictEnv where
  body : PyResult JsonValue
  b64decode : String → PyResult Bytes
  imdecode : Bytes → Option Image
  flipAndConvert : Image → Image
  detect : Image → PyResult FaceLandmarkerResult

/-- An HTTP response: status code and JSON body. -/
structure HttpResponse where
  status : ℕ
  body : JsonValue

/-- The body of the `try` block of `predict_smile` in app.py, as an
exception-propagating computation. -/
def predict_smile_try (env : PredictEnv) : PyResult HttpResponse :=
  match env.body with
  | .exn e => .exn e
  | .ok data =>
    match pyContains "image" data with
    | .exn e => .exn e
    | .ok b =>
      if !b then .ok ⟨400, .jobj [("error", .jstr "No image data")]⟩
      else
        match pySubscript "image" data with
        | .exn e => .exn e
        | .ok v =>
          match pySplitComma v with
          | .exn e => .exn e
          | .ok encoded =>
            match env.b64decode encoded with
            | .exn e => .exn e
            | .ok img_data =>
              match env.imdecode img_data with
              | none => .ok ⟨400, .jobj [("error", .jstr "Decode failed")]⟩
              | some img =>
                match env.detect (env.flipAndConvert img) with
                | .exn e => .exn e
                | .ok detection_result =>
                  let score := calculate_smile_score detection_result
                  .ok ⟨200, .jobj [("smile", .jbool (smile_detected score)),
                                   ("score", .jnum score)]⟩

/-- `predict_smile` from app.py: the `try` body, with
`except Exception as e: return jsonify(error=str(e)), 500` catching every
raised exception. -/
def predict_smile (env : PredictEnv) : HttpResponse :=
  match predict_smile_try env with
  | .ok resp => resp
  | .exn e => ⟨500, .jobj [("error", .jstr e)]⟩

/-! ### Rounding lemmas -/

lemma floor_le_roundHalfEven (q : ℚ) : ⌊q⌋ ≤ roundHalfEven q := by
  unfold roundHalfEven
  split_ifs <;> omega

lemma roundHalfEven_le_floor_add_one (q : ℚ) : roundHalfEven q ≤ ⌊q⌋ + 1 := by
  unfold roundHalfEven
  split_ifs <;> omega

lemma roundHalfEven_nonneg (q : ℚ) (h : 0 ≤ q) : 0 ≤ roundHalfEven q := by
  have := Int.floor_nonneg.mpr h
  have := floor_le_roundHalfEven q
  omega

lemma roundHalfEven_le_int (q : ℚ) (n : ℤ) (h : q ≤ n) : roundHalfEven q ≤ n := by
  rcases eq_or_lt_of_le (Int.floor_le_floor h) with heq | hlt
  · rw [Int.floor_intCast] at heq
    unfold roundHalfEven
    have hfr : Int.fract q = q - ⌊q⌋ := rfl
    have hfl : (⌊q⌋ : ℚ) ≤ q := Int.floor_le q
    split_ifs with h1 h2 h3
    · omega
    · exfalso
      have hc : (⌊q⌋ : ℚ) = (n : ℚ) := by exact_mod_cast heq
      rw [hfr] at h2
      nlinarith [h2]
    · omega
    · exfalso
      have hc : (⌊q⌋ : ℚ) = (n : ℚ) := by exact_mod_cast heq
      have hh : Int.fract q = 1/2 := le_antisymm (not_lt.mp h2) (not_lt.mp h1)
      rw [hfr] at hh
      nlinarith [hh]
  · rw [Int.floor_intCast] at hlt
    have := roundHalfEven_le_floor_add_one q
    omega

lemma roundHalfEven_mono {a b : ℚ} (h : a ≤ b) : roundHalfEven a ≤ roundHalfEven b := by
  rcases eq_or_lt_of_le (Int.floor_le_floor h) with heq | hlt
  · have hfr : Int.fract a ≤ Int.fract b := by
      rw [Int.fract, Int.fract, heq]
      linarith
    unfold roundHalfEven
    rw [heq] at *
    split_ifs <;> first | omega | (exfalso; linarith)
  · have h1 := roundHalfEven_le_floor_add_one a
    have h2 := floor_le_roundHalfEven b
    omega

lemma round3_mono {a b : ℚ} (h : a ≤ b) : round3 a ≤ round3 b := by
  unfold round3
  have hm : roundHalfEven (a * 1000) ≤ roundHalfEven (b * 1000) :=
    roundHalfEven_mono (by linarith)
  have hc : ((roundHalfEven (a * 1000) : ℚ)) ≤ (roundHalfEven (b * 1000) : ℚ) := by
    exact_mod_cast hm
  linarith

lemma round3_nonneg {q : ℚ} (h : 0 ≤ q) : 0 ≤ round3 q := by
  unfold round3
  have hm : 0 ≤ roundHalfEven (q * 1000) := roundHalfEven_nonneg _ (by linarith)
  have hc : (0 : ℚ) ≤ (roundHalfEven (q * 1000) : ℚ) := by exact_mod_cast hm
  linarith

lemma round3_le_one {q : ℚ} (h : q ≤ 1) : round3 q ≤ 1 := by
  unfold round3
  have hm : roundHalfEven (q * 1000) ≤ 1000 :=
    roundHalfEven_le_int _ 1000 (by push_cast; linarith)
  have hc : ((roundHalfEven (q * 1000) : ℚ)) ≤ 1000 := by exact_mod_cast hm
  linarith

/-! ### Score bounds -/

lemma clamped_score_nonneg (l : LandmarkSet) : 0 ≤ clamped_score l := by
  unfold clamped_score
  simp [le_min_iff]

lemma clamped_score_le_one (l : LandmarkSet) : clamped_score l ≤ 1 :=
  min_le_left 1 _

lemma calculate_smile_score_nonneg (r : FaceLandmarkerResult) :
    0 ≤ calculate_smile_score r := by
  unfold calculate_smile_score
  rcases r.face_landmarks with _ | ⟨l, rest⟩
  · norm_num
  · dsimp only
    split_ifs
    · norm_num
    · exact round3_nonneg (clamped_score_nonneg l)

lemma calculate_smile_score_le_one (r : FaceLandmarkerResult) :
    calculate_smile_score r ≤ 1 := by
  unfold calculate_smile_score
  rcases r.face_landmarks with _ | ⟨l, rest⟩
  · norm_num
  · dsimp only
    split_ifs
    · norm_num
    · exact round3_le_one (clamped_score_le_one l)

/-! ### Pointwise update of a landmark set -/

/-- Replace the landmark at index `i` by one with the same x and the given y. -/
def updateY (l : LandmarkSet) (i : ℕ) (t : ℚ) : LandmarkSet :=
  fun j => if j = i then ⟨(l i).x, t⟩ else l j

lemma upper_y_updateY61 (l : LandmarkSet) (t : ℚ) :
    upper_y (updateY l 61 t) = upper_y l + (t - (l 61).y) / 5 := by
  unfold upper_y updateY MOUTH_UPPER_POINTS
  norm_num
  ring

lemma lower_y_updateY61 (l : LandmarkSet) (t : ℚ) :
    lower_y (updateY l 61 t) = lower_y l := by
  unfold lower_y updateY MOUTH_LOWER_POINTS
  norm_num

/-! ### Shapes of `predict_smile` responses -/

lemma predict_smile_try_cases (env : PredictEnv) :
    (∃ e, predict_smile_try env = .exn e) ∨
    predict_smile_try env = .ok ⟨400, .jobj [("error", .jstr "No image data")]⟩ ∨
    predict_smile_try env = .ok ⟨400, .jobj [("error", .jstr "Decode failed")]⟩ ∨
    (∃ dr, predict_smile_try env =
      .ok ⟨200, .jobj [("smile", .jbool (smile_detected (calculate_smile_score dr))),
                       ("score", .jnum (calculate_smile_score dr))]⟩) := by
  unfold predict_smile_try
  rcases env.body with data | e
  · dsimp only
    rcases pyContains "image" data with b | e
    · dsimp only
      rcases b with _ | _
      · simp
      · rw [Bool.not_true, if_neg (by simp)]
        rcases pySubscript "image" data with v | e
        · dsimp only
          rcases pySplitComma v with enc | e
          · dsimp only
            rcases env.b64decode enc with bs | e
            · dsimp only
              rcases env.imdecode bs with _ | img
              · simp
              · dsimp only
                rcases env.detect (env.flipAndConvert img) with dr | e
                · dsimp only
                  right; right; right
                  exact ⟨dr, rfl⟩
                · simp
            · simp
          · simp
        · simp
    · simp
  · simp

/-! ### Concrete inputs used as witnesses and counterexamples -/

/-- A family of landmark sets differing only in the y-coordinate of index 61
(the left mouth corner): the other first-five upper-lip samples sit at
y = 0.40, the first-five lower-lip samples at y = 0.45, and the right
corner at y = 0.37. -/
def ceLandmarks (t : ℚ) : LandmarkSet := fun i =>
  if i = 61 then ⟨0, t⟩
  else if i = 291 then ⟨0, 37/100⟩
  else if i = 185 ∨ i = 40 ∨ i = 39 ∨ i = 37 then ⟨0, 2/5⟩
  else ⟨0, 9/20⟩

/-- Scenario A of the spec: upper-lip mean 0.40 (index 61 at 0.37, the other
four first-five upper samples at 0.4075), lower-lip mean 0.42, both corners
at 0.37. -/
def scenarioALandmarks : LandmarkSet := fun i =>
  if i = 61 then ⟨0, 37/100⟩
  else if i = 291 then ⟨0, 37/100⟩
  else if i = 185 ∨ i = 40 ∨ i = 39 ∨ i = 37 then ⟨0, 163/400⟩
  else ⟨0, 21/50⟩

/-- A landmark set whose mouth is open beyond the gate: the first-five
upper samples at y = 0.30 and the first-five lower samples at y = 0.40,
so `mouth_height = 0.10 > 0.08`. -/
def gatedLandmarks : LandmarkSet := fun i =>
  if i = 146 ∨ i = 91 ∨ i = 181 ∨ i = 84 ∨ i = 17 then ⟨0, 2/5⟩
  else ⟨0, 3/10⟩

/-- An environment whose request body parses to the JSON string "hello"
(a non-object value for which Python membership does not raise). -/
def envStrBody : PredictEnv :=
  ⟨.ok (.jstr "hello"), fun _ => .exn "b64", fun _ => none, id, fun _ => .exn "detect"⟩

/-- An environment whose request body parses to JSON `null`. -/
def envNullBody : PredictEnv :=
  ⟨.ok .null, fun _ => .exn "b64", fun _ => none, id, fun _ => .exn "detect"⟩

/-- An environment whose request body parses to a JSON object without an
"image" key. -/
def envObjNoImage : PredictEnv :=
  ⟨.ok (.jobj [("foo", .jstr "x")]), fun _ => .exn "b64", fun _ => none, id,
   fun _ => .exn "detect"⟩

/-- An environment that walks the whole happy path: a well-formed body,
decodable image, and a detector that finds no face. -/
def envNoFace : PredictEnv :=
  ⟨.ok (.jobj [("image", .jstr "data:,AAAA")]),
   fun _ => .ok ⟨[]⟩, fun _ => some ⟨0⟩, id, fun _ => .ok ⟨[]⟩⟩

/-! ### Claims -/

/-- C1: when the landmark list is empty (no face detected), the score is
exactly 0.0 and the detected flag is false, with no exception and no
further computation. -/
theorem no_face_gives_zero (r : FaceLandmarkerResult)
    (h : r.face_landmarks = []) :
    calculate_smile_score r = 0 ∧
    smile_detected (calculate_smile_score r) = false := by
  have hs : calculate_smile_score r = 0 := by
    unfold calculate_smile_score
    rw [h]
  refine ⟨hs, ?_⟩
  rw [hs]
  norm_num [smile_detected]

theorem no_face_gives_zero_witness :
    calculate_smile_score ⟨[]⟩ = 0 ∧
    smile_detected (calculate_smile_score ⟨[]⟩) = false :=
  no_face_gives_zero ⟨[]⟩ rfl

/-- C2: whenever `mouth_height = lower_y - upper_y > 0.08`, the result is
score 0.0 and detected false, regardless of the corner landmarks: the
openness gate takes precedence over corner-elevation scoring. -/
theorem openness_gate_zero (l : LandmarkSet) (rest : List LandmarkSet)
    (h : mouth_height l > 8/100) :
    calculate_smile_score ⟨l :: rest⟩ = 0 ∧
    smile_detected (calculate_smile_score ⟨l :: rest⟩) = false := by
  have hs : calculate_smile_score ⟨l :: rest⟩ = 0 := by
    show (if mouth_height l > 8/100 then (0:ℚ) else round3 (clamped_score l)) = 0
    rw [if_pos h]
  refine ⟨hs, ?_⟩
  rw [hs]
  norm_num [smile_detected]

theorem openness_gate_zero_witness :
    calculate_smile_score ⟨[gatedLandmarks]⟩ = 0 ∧
    smile_detected (calculate_smile_score ⟨[gatedLandmarks]⟩) = false :=
  openness_gate_zero gatedLandmarks []
    (by norm_num [mouth_height, upper_y, lower_y, MOUTH_UPPER_POINTS,
      MOUTH_LOWER_POINTS, gatedLandmarks])

/-- C8: the left-corner index 61 is among the first 5 upper-lip sample
indices, so lowering only `landmarks[61].y` by `d > 0` lowers `upper_y` by
exactly `d/5`, lowers `center_y` by exactly `d/10`, and raises
`mouth_height` by exactly `d/5`. -/
theorem left_corner_in_upper_samples (l : LandmarkSet) (d : ℚ) (hd : 0 < d) :
    MOUTH_CORNERS_LEFT ∈ MOUTH_UPPER_POINTS.take 5 ∧
    upper_y (updateY l MOUTH_CORNERS_LEFT ((l MOUTH_CORNERS_LEFT).y - d)) =
      upper_y l - d/5 ∧
    center_y (updateY l MOUTH_CORNERS_LEFT ((l MOUTH_CORNERS_LEFT).y - d)) =
      center_y l - d/10 ∧
    mouth_height (updateY l MOUTH_CORNERS_LEFT ((l MOUTH_CORNERS_LEFT).y - d)) =
      mouth_height l + d/5 := by
  have h61 : MOUTH_CORNERS_LEFT = 61 := rfl
  rw [h61]
  refine ⟨by decide, ?_, ?_, ?_⟩
  · rw [upper_y_updateY61]; ring
  · unfold center_y
    rw [upper_y_updateY61, lower_y_updateY61]; ring
  · unfold mouth_height
    rw [upper_y_updateY61, lower_y_updateY61]; ring

theorem left_corner_in_upper_samples_witness :
    MOUTH_CORNERS_LEFT ∈ MOUTH_UPPER_POINTS.take 5 ∧
    upper_y (updateY gatedLandmarks MOUTH_CORNERS_LEFT
      ((gatedLandmarks MOUTH_CORNERS_LEFT).y - 1)) = upper_y gatedLandmarks - 1/5 :=
  ⟨(left_corner_in_upper_samples gatedLandmarks 1 (by norm_num)).1,
   (left_corner_in_upper_samples gatedLandmarks 1 (by norm_num)).2.1⟩

/-- C9: the score is computed from the first landmark set only; extra
landmark sets in the detector result change neither the score nor the
detected flag. -/
theorem first_face_only (l : LandmarkSet) (rest : List LandmarkSet) :
    calculate_smile_score ⟨l :: rest⟩ = calculate_smile_score ⟨[l]⟩ ∧
    smile_detected (calculate_smile_score ⟨l :: rest⟩) =
      smile_detected (calculate_smile_score ⟨[l]⟩) :=
  ⟨rfl, rfl⟩

lemma round3_one : round3 1 = 1 := by
  unfold round3 roundHalfEven
  rw [Int.fract]
  norm_num

/-- C4: a landmark set with upper-lip mean 0.40, lower-lip mean 0.42 and
both corners at y = 0.37 scores exactly 1.0 with detected true
(center 0.41, per-side elevation 0.04, raw (0.04-0.005)/0.035 = 1). -/
theorem scenario_a_score_one (l : LandmarkSet) (rest : List LandmarkSet)
    (h1 : upper_y l = 2/5) (h2 : lower_y l = 21/50)
    (h3 : (l MOUTH_CORNERS_LEFT).y = 37/100)
    (h4 : (l MOUTH_CORNERS_RIGHT).y = 37/100) :
    calculate_smile_score ⟨l :: rest⟩ = 1 ∧
    smile_detected (calculate_smile_score ⟨l :: rest⟩) = true := by
  have hgate : ¬ mouth_height l > 8/100 := by
    unfold mouth_height
    rw [h1, h2]
    norm_num
  have hclamp : clamped_score l = 1 := by
    unfold clamped_score avg_elevation left_elevation right_elevation center_y
    rw [h1, h2, h3, h4]
    norm_num [max_def, min_def]
  have hs : calculate_smile_score ⟨l :: rest⟩ = 1 := by
    show (if mouth_height l > 8/100 then (0:ℚ) else round3 (clamped_score l)) = 1
    rw [if_neg hgate, hclamp, round3_one]
  refine ⟨hs, ?_⟩
  rw [hs]
  norm_num [smile_detected]

theorem scenario_a_score_one_witness :
    calculate_smile_score ⟨[scenarioALandmarks]⟩ = 1 ∧
    smile_detected (calculate_smile_score ⟨[scenarioALandmarks]⟩) = true :=
  scenario_a_score_one scenarioALandmarks []
    (by norm_num [upper_y, MOUTH_UPPER_POINTS, scenarioALandmarks])
    (by norm_num [lower_y, MOUTH_LOWER_POINTS, scenarioALandmarks])
    (by norm_num [scenarioALandmarks, MOUTH_CORNERS_LEFT])
    (by norm_num [scenarioALandmarks, MOUTH_CORNERS_RIGHT])

/-- C5: every score lies in [0, 1], is a multiple of 0.001, and on the
ungated non-empty path equals the clamped raw value rounded to three
decimal places. -/
theorem score_bounded_and_rounded (r : FaceLandmarkerResult) :
    0 ≤ calculate_smile_score r ∧ calculate_smile_score r ≤ 1 ∧
    (∃ k : ℤ, calculate_smile_score r = (k : ℚ) / 1000) ∧
    (∀ l rest, r.face_landmarks = l :: rest → ¬ mouth_height l > 8/100 →
      calculate_smile_score r = round3 (clamped_score l)) := by
  refine ⟨calculate_smile_score_nonneg r, calculate_smile_score_le_one r, ?_, ?_⟩
  · unfold calculate_smile_score
    rcases r.face_landmarks with _ | ⟨l, rest⟩
    · exact ⟨0, by norm_num⟩
    · dsimp only
      split_ifs
      · exact ⟨0, by norm_num⟩
      · exact ⟨roundHalfEven (clamped_score l * 1000), rfl⟩
  · intro l rest h hg
    unfold calculate_smile_score
    rw [h]
    dsimp only
    rw [if_neg hg]

theorem score_bounded_and_rounded_witness :
    calculate_smile_score ⟨[scenarioALandmarks]⟩ =
      round3 (clamped_score scenarioALandmarks) :=
  (score_bounded_and_rounded ⟨[scenarioALandmarks]⟩).2.2.2 scenarioALandmarks [] rfl
    (by norm_num [mouth_height, upper_y, lower_y, MOUTH_UPPER_POINTS,
      MOUTH_LOWER_POINTS, scenarioALandmarks])

/-- C3 counterexample: raising the left corner (decreasing `landmarks[61].y`
from 0.40 to 0.20, every other point fixed by construction of
`ceLandmarks`) strictly decreases the score from 1.0 to 0.0, because the
corner index also feeds `upper_y`, so the raise widens `mouth_height`
past the 0.08 gate. -/
theorem corner_raise_drops_score :
    ((ceLandmarks (1/5)) 61).y < ((ceLandmarks (2/5)) 61).y ∧
    calculate_smile_score ⟨[ceLandmarks (1/5)]⟩ <
      calculate_smile_score ⟨[ceLandmarks (2/5)]⟩ := by
  have h1 : calculate_smile_score ⟨[ceLandmarks (1/5)]⟩ = 0 := by
    norm_num [calculate_smile_score, mouth_height, upper_y, lower_y,
      MOUTH_UPPER_POINTS, MOUTH_LOWER_POINTS, ceLandmarks]
  have h2 : calculate_smile_score ⟨[ceLandmarks (2/5)]⟩ = 1 := by
    norm_num [calculate_smile_score, mouth_height, upper_y, lower_y, clamped_score,
      avg_elevation, left_elevation, right_elevation, center_y,
      MOUTH_UPPER_POINTS, MOUTH_LOWER_POINTS, MOUTH_CORNERS_LEFT, MOUTH_CORNERS_RIGHT,
      ceLandmarks, round3, roundHalfEven, Int.fract]
  refine ⟨by norm_num [ceLandmarks], ?_⟩
  rw [h1, h2]
  norm_num

lemma clamped_score_mono {a b : LandmarkSet}
    (h : avg_elevation a ≤ avg_elevation b) :
    clamped_score a ≤ clamped_score b := by
  unfold clamped_score
  gcongr

/-- C3 (amended): holding every other point fixed, decreasing the
y-coordinate of the left corner never decreases the score, provided the
corner starts at or above the mouth center and the widened mouth still
passes the openness gate. -/
theorem corner_raise_monotone (l : LandmarkSet) (d : ℚ) (hd : 0 ≤ d)
    (hcl : (l MOUTH_CORNERS_LEFT).y ≤ center_y l)
    (hgate : mouth_height (updateY l MOUTH_CORNERS_LEFT
      ((l MOUTH_CORNERS_LEFT).y - d)) ≤ 8/100) :
    calculate_smile_score ⟨[l]⟩ ≤
      calculate_smile_score ⟨[updateY l MOUTH_CORNERS_LEFT
        ((l MOUTH_CORNERS_LEFT).y - d)]⟩ := by
  have h61 : MOUTH_CORNERS_LEFT = 61 := rfl
  rw [h61] at hcl hgate ⊢
  set l2 := updateY l 61 ((l 61).y - d) with hl2
  have hup : upper_y l2 = upper_y l - d/5 := by
    rw [hl2, upper_y_updateY61]; ring
  have hlo : lower_y l2 = lower_y l := lower_y_updateY61 l _
  have hcen : center_y l2 = center_y l - d/10 := by
    unfold center_y; rw [hup, hlo]; ring
  have hmh : mouth_height l2 = mouth_height l + d/5 := by
    unfold mouth_height; rw [hup, hlo]; ring
  rw [hmh] at hgate
  have hg1 : ¬ mouth_height l > 8/100 := not_lt.mpr (by linarith)
  have hg2 : ¬ mouth_height l2 > 8/100 := not_lt.mpr (by rw [hmh]; linarith)
  show (if mouth_height l > 8/100 then (0:ℚ) else round3 (clamped_score l)) ≤
       (if mouth_height l2 > 8/100 then (0:ℚ) else round3 (clamped_score l2))
  rw [if_neg hg1, if_neg hg2]
  apply round3_mono
  apply clamped_score_mono
  have hy61 : (l2 61).y = (l 61).y - d := by simp [hl2, updateY]
  have hy291 : (l2 291).y = (l 291).y := by simp [hl2, updateY]
  have hLl : left_elevation l = center_y l - (l 61).y := by
    unfold left_elevation MOUTH_CORNERS_LEFT
    exact max_eq_right (by linarith)
  have hLl2 : left_elevation l2 = center_y l - (l 61).y + 9*d/10 := by
    unfold left_elevation MOUTH_CORNERS_LEFT
    rw [hcen, hy61, max_eq_right (by linarith)]
    ring
  have hRl2 : right_elevation l ≤ right_elevation l2 + d/10 := by
    unfold right_elevation MOUTH_CORNERS_RIGHT
    rw [hcen, hy291]
    apply max_le
    · have := le_max_left (0:ℚ) (center_y l - d/10 - (l 291).y)
      linarith
    · have := le_max_right (0:ℚ) (center_y l - d/10 - (l 291).y)
      linarith
  unfold avg_elevation
  rw [hLl, hLl2]
  linarith [hRl2]

theorem corner_raise_monotone_witness :
    calculate_smile_score ⟨[ceLandmarks (2/5)]⟩ ≤
      calculate_smile_score ⟨[updateY (ceLandmarks (2/5)) MOUTH_CORNERS_LEFT
        (((ceLandmarks (2/5)) MOUTH_CORNERS_LEFT).y - 1/100)]⟩ :=
  corner_raise_monotone (ceLandmarks (2/5)) (1/100) (by norm_num)
    (by norm_num [ceLandmarks, center_y, upper_y, lower_y, MOUTH_UPPER_POINTS,
      MOUTH_LOWER_POINTS, MOUTH_CORNERS_LEFT])
    (by norm_num [ceLandmarks, updateY, mouth_height, upper_y, lower_y,
      MOUTH_UPPER_POINTS, MOUTH_LOWER_POINTS, MOUTH_CORNERS_LEFT])

/-- C7: every request to `/predict` yields either a 200 response with a
smile/score body, or a structured error body with status 400 or 500; no
raised exception escapes the handler. -/
theorem predict_structured_response (env : PredictEnv) :
    ((predict_smile env).status = 200 ∧
      ∃ b q, (predict_smile env).body =
        .jobj [("smile", .jbool b), ("score", .jnum q)]) ∨
    (((predict_smile env).status = 400 ∨ (predict_smile env).status = 500) ∧
      ∃ s, (predict_smile env).body = .jobj [("error", .jstr s)]) := by
  unfold predict_smile
  rcases predict_smile_try_cases env with ⟨e, he⟩ | he | he | ⟨dr, he⟩ <;> rw [he]
  · right; exact ⟨Or.inr rfl, e, rfl⟩
  · right; exact ⟨Or.inl rfl, _, rfl⟩
  · right; exact ⟨Or.inl rfl, _, rfl⟩
  · left; exact ⟨rfl, _, _, rfl⟩

/-- C6: the smile flag in a success response of `/predict` is true exactly
when the score in the same response is strictly greater than 0.5. -/
theorem response_smile_iff_score_gt_half (env : PredictEnv) (b : Bool) (q : ℚ)
    (h : (predict_smile env).body =
      .jobj [("smile", .jbool b), ("score", .jnum q)]) :
    b = true ↔ q > 1/2 := by
  unfold predict_smile at h
  rcases predict_smile_try_cases env with ⟨e, he⟩ | he | he | ⟨dr, he⟩ <;>
    rw [he] at h <;> dsimp only at h
  · exact absurd (congrArg id h) (by simp)
  · exact absurd (congrArg id h) (by simp)
  · exact absurd (congrArg id h) (by simp)
  · simp only [JsonValue.jobj.injEq, List.cons.injEq, Prod.mk.injEq,
      JsonValue.jbool.injEq, JsonValue.jnum.injEq, and_true] at h
    obtain ⟨⟨-, hb⟩, -, hq⟩ := h
    subst hb
    subst hq
    simp [smile_detected]

theorem response_smile_iff_score_gt_half_witness :
    smile_detected (calculate_smile_score ⟨[]⟩) = true ↔
      calculate_smile_score ⟨[]⟩ > 1/2 :=
  response_smile_iff_score_gt_half envNoFace
    (smile_detected (calculate_smile_score ⟨[]⟩))
    (calculate_smile_score ⟨[]⟩) rfl

/-- C10 counterexample: a request body parsing to the JSON string "hello"
is a non-object value, yet the membership test does not raise: the
endpoint answers 400, not 500. -/
theorem nonobject_string_body_gives_400 :
    pyContains "image" (JsonValue.jstr "hello") = .ok false ∧
    (predict_smile envStrBody).status = 400 :=
  ⟨rfl, rfl⟩

/-- C10 (amended): when the body is absent (parsing raised) or parses to
JSON null, a number or a boolean, the membership test raises and the
endpoint answers 500 with a structured error body, while a JSON object
without an "image" key answers 400. -/
theorem membership_typeerror_gives_500 (env : PredictEnv) :
    ((∃ m, env.body = .exn m) ∨ env.body = .ok .null ∨
     (∃ q, env.body = .ok (.jnum q)) ∨ (∃ b, env.body = .ok (.jbool b)) →
      (predict_smile env).status = 500 ∧
      ∃ s, (predict_smile env).body = .jobj [("error", .jstr s)]) ∧
    (∀ kvs, env.body = .ok (.jobj kvs) →
      (kvs.any (fun p => p.1 == "image")) = false →
      predict_smile env = ⟨400, .jobj [("error", .jstr "No image data")]⟩) := by
  constructor
  · intro h
    unfold predict_smile predict_smile_try
    rcases h with ⟨m, hm⟩ | hm | ⟨q, hm⟩ | ⟨b, hm⟩ <;> rw [hm] <;> exact ⟨rfl, _, rfl⟩
  · intro kvs hm hno
    unfold predict_smile predict_smile_try
    rw [hm]
    dsimp only [pyContains]
    rw [hno]
    rfl

theorem membership_typeerror_gives_500_witness :
    (predict_smile envNullBody).status = 500 ∧
    predict_smile envObjNoImage = ⟨400, .jobj [("error", .jstr "No image data")]⟩ :=
  ⟨((membership_typeerror_gives_500 envNullBody).1 (Or.inr (Or.inl rfl))).1,
   (membership_typeerror_gives_500 envObjNoImage).2 [("foo", .jstr "x")] rfl rfl⟩
